import Mathlib

/-!
Shallow embedding of the PR-review Azure Function
(`src/PRReviewFunction/index.js`) and proofs about its behaviour.

JS values are modelled as follows: JS strings become `String`, JS numbers
used as line numbers and ids become `Int`/`Nat`, possibly-`undefined`
fields become `Option`, and code that can throw returns `Except JsError`.
External collaborators (the AI model, the git REST client, the guidelines
loader, Node's `URL` parser) are passed in as function parameters, so that
every repository function itself is a total, executable Lean definition.
-/

namespace PRReview

/-- A JavaScript `Error`-like value: its `message`, an optional `code`
property, and the optional `code` of its `cause` (`error.cause?.code`). -/
structure JsError where
  message : String
  code : Option String
  causeCode : Option String
  deriving DecidableEq

/-- JS truthiness of a possibly-undefined string: `undefined` and `""` are
falsy, every other string is truthy. -/
def jsTruthyS : Option String → Bool
  | none => false
  | some s => s != ""

/-- JS truthiness of a possibly-undefined number (used for ids): `undefined`
and `0` are falsy. -/
def jsTruthyN : Option Nat → Bool
  | none => false
  | some n => n != 0

/-- JS truthiness of a possibly-undefined boolean. -/
def jsTruthyB : Option Bool → Bool
  | none => false
  | some b => b

/-- JS `a || b` on possibly-undefined strings (falsy fallback). -/
def jsOr (a b : Option String) : Option String :=
  if jsTruthyS a then a else b

/-- JS `s.toLowerCase()`: character-wise lowercasing. -/
def jsToLower (s : String) : String :=
  ⟨s.data.map Char.toLower⟩

/-- JS `s.startsWith(pre)`: `pre` is a prefix of `s`. -/
def jsStartsWith (s pre : String) : Bool :=
  pre.data.isPrefixOf s.data

/-- Helper for `jsIncludes`: does `sub` occur as a contiguous sublist? -/
def jsIncludesAux (sub : List Char) : List Char → Bool
  | [] => sub.isEmpty
  | c :: rest => sub.isPrefixOf (c :: rest) || jsIncludesAux sub rest

/-- JS `s.includes(sub)`: substring containment. -/
def jsIncludes (s sub : String) : Bool :=
  jsIncludesAux sub.data s.data

/-- Drops one trailing `\r` from an accumulated (reversed) line: the `\r?`
part of the JS split regex `/\r?\n/`. -/
def dropTrailingCR : List Char → List Char
  | '\r' :: acc2 => acc2
  | acc => acc

/-- Helper for `splitLines`: splits a character list at each `\n`,
removing a single `\r` immediately before the `\n` (the JS regex
`/\r?\n/`). `acc` holds the current line, reversed. -/
def splitLinesAux : List Char → List Char → List String
  | [], acc => [⟨acc.reverse⟩]
  | c :: rest, acc =>
      if c = '\n' then
        (⟨(dropTrailingCR acc).reverse⟩ : String) :: splitLinesAux rest []
      else
        splitLinesAux rest (c :: acc)

/-- `splitLines` from index.js line 433: `content.split(/\r?\n/)`. -/
def splitLines (content : String) : List String :=
  splitLinesAux content.data []

/-- `numberLines` from index.js line 442: 1-based `"<n>: <line>"`
rendering, joined with `\n`. -/
def numberLines (content : String) : String :=
  String.intercalate "\n"
    ((splitLines content).mapIdx fun index line => toString (index + 1) ++ ": " ++ line)

/-- One comment as returned by the model, before post-processing
(`result.comments[i]` in `generateComments`). -/
structure RawComment where
  lineNumber : Int
  comment : String
  deriving DecidableEq

/-- The structured object the model chain yields (`result` in
`generateComments`): `comments` may be absent (malformed model output),
`newContent` is the suggested full file. -/
structure ModelRaw where
  comments : Option (List RawComment)
  newContent : String
  deriving DecidableEq

/-- The variable inputs `generateComments` hands to the model chain
(`chain.invoke({guidelines, numberedOld, numberedNew})`). -/
structure ModelInput where
  guidelines : String
  numberedOld : String
  numberedNew : String
  deriving DecidableEq

/-- An `AIComment` after post-processing (index.js typedef at line 16). -/
structure AIComment where
  lineNumber : Int
  comment : String
  deriving DecidableEq

/-- The value `generateComments` returns: comments, suggested content and
(on failure) a classified error message. -/
structure ReviewOutcome where
  comments : List AIComment
  newContent : String
  error : Option String
  deriving DecidableEq

/-- The error classification in the `catch` block of `generateComments`
(index.js lines 667-681). -/
def classifyAIError (error : JsError) : String :=
  if error.message != "" && jsIncludes error.message "timed out" then
    "AI model request timed out - the service may be experiencing high load"
  else if error.code == some "ETIMEDOUT" || error.causeCode == some "ETIMEDOUT" then
    "Network timeout connecting to AI service"
  else if error.code == some "ECONNREFUSED" then
    "Connection refused by AI service"
  else
    "AI analysis failed"

/-- The clamp applied to every returned line number (index.js line 650):
`Math.min(Math.max(1, n), newLines.length)`. -/
def clampLine (x : Int) (n : Nat) : Int :=
  min (max 1 x) (n : Int)

/-- `generateComments` from index.js line 535. The model chain (prompt,
model, JSON parser, and the 25-second timeout race) is abstracted as the
`model` parameter: `Except.error` covers a rejected promise (timeout,
transport error, JSON-parse failure), and `Except.ok` with `comments =
none` covers a parsed object without a `comments` array (whose `.map`
throws a TypeError that the same `catch` block turns into the generic
message). -/
def generateComments (oldContent newContent filePath guidelines : String)
    (model : ModelInput → Except JsError ModelRaw) : ReviewOutcome :=
  if oldContent == newContent then
    { comments := [], newContent := newContent, error := none }
  else
    let newLines := splitLines newContent
    let numberedOld := numberLines oldContent
    let numberedNew := numberLines newContent
    match model { guidelines := guidelines, numberedOld := numberedOld,
                  numberedNew := numberedNew } with
    | Except.error e =>
        { comments := [], newContent := newContent, error := some (classifyAIError e) }
    | Except.ok result =>
        match result.comments with
        | none =>
            { comments := [], newContent := newContent, error := some "AI analysis failed" }
        | some cs =>
            { comments :=
                (cs.map fun c =>
                    { lineNumber := clampLine c.lineNumber newLines.length,
                      comment := c.comment }).filter
                  fun c =>
                    decide (0 < c.lineNumber) && decide (c.lineNumber ≤ (newLines.length : Int)),
              newContent := result.newContent,
              error := none }

/-- `validateCorrection` from index.js line 800. -/
def validateCorrection (original corrected : String) : Bool :=
  if corrected.trim.length == 0 then false else true

/-- A `FileCorrection` (index.js typedef at line 28). -/
structure FileCorrection where
  path : String
  originalContent : String
  correctedContent : String
  deriving DecidableEq

/-- The correction-collection step of the per-file loop (index.js lines
325-331): push `{path, originalContent, correctedContent}` exactly when
`analysis.newContent !== newContent && validateCorrection(newContent,
analysis.newContent)`. -/
def correctionFor (itemPath newContent suggested : String) : Option FileCorrection :=
  if (suggested != newContent) && validateCorrection newContent suggested then
    some { path := itemPath, originalContent := newContent, correctedContent := suggested }
  else
    none

/-- `createCommentThread` from index.js line 705: clamps the line to be
at least 1, prefixes the provenance marker, and calls the remote
`createThread` collaborator (which may throw). -/
def createCommentThread (createThread : String → Int → String → Except JsError Unit)
    (commentText filePath : String) (lineNumber : Int) : Except JsError Unit :=
  createThread filePath (max 1 lineNumber) ("[AI Review] " ++ commentText)

/-- The comment-posting inner loop of `processPullRequest` (index.js lines
312-322): one `createCommentThread` await per comment, in order; a thrown
error propagates. -/
def postAll (createThread : String → Int → String → Except JsError Unit)
    (filePath : String) : List AIComment → Except JsError Unit
  | [] => Except.ok ()
  | c :: rest => do
      let _ ← createCommentThread createThread c.comment filePath c.lineNumber
      postAll createThread filePath rest

/-- `change.item` of one changed-file entry: `path` and `isFolder` may each
be absent. -/
structure ChangeItem where
  path : Option String
  isFolder : Option Bool
  deriving DecidableEq

/-- One entry of `prChanges.changeEntries`; `item` itself may be absent. -/
structure ChangeEntry where
  item : Option ChangeItem
  deriving DecidableEq

/-- `change.item?.path`. -/
def entryPath (ch : ChangeEntry) : Option String :=
  ch.item.bind ChangeItem.path

/-- The `continue` guard of the per-file loop (index.js line 300):
`!itemPath || change.item?.isFolder`. -/
def skipEntry (ch : ChangeEntry) : Bool :=
  !jsTruthyS (entryPath ch) || jsTruthyB (ch.item.bind ChangeItem.isFolder)

/-- The per-changed-file loop of `processPullRequest` (index.js lines
298-332). `fetch path ref` stands for `getFileContent` (which rethrows
collaborator failures, line 409); `createThread` stands for
`gitApi.createThread`. Returns the per-file review outcomes in order plus
the collected corrections, or the first uncaught thrown error. The two
content fetches run under `Promise.all` in JS; sequencing them preserves
both the success value and failure propagation. -/
def processFiles (fetch : String → String → Except JsError String)
    (createThread : String → Int → String → Except JsError Unit)
    (model : ModelInput → Except JsError ModelRaw)
    (guidelines targetRef sourceRef : String) :
    List ChangeEntry → Except JsError (List (String × ReviewOutcome) × List FileCorrection)
  | [] => Except.ok ([], [])
  | ch :: rest =>
      if skipEntry ch then
        processFiles fetch createThread model guidelines targetRef sourceRef rest
      else
        let itemPath := (entryPath ch).getD ""
        do
          let oldContent ← fetch itemPath targetRef
          let newContent ← fetch itemPath sourceRef
          let analysis := generateComments oldContent newContent itemPath guidelines model
          let _ ← postAll createThread itemPath analysis.comments
          let tailRes ← processFiles fetch createThread model guidelines targetRef sourceRef rest
          Except.ok ((itemPath, analysis) :: tailRes.1,
            (correctionFor itemPath newContent analysis.newContent).toList ++ tailRes.2)

/-- The title given to the correction PR (index.js line 781). -/
def correctionPRTitle (originalTitle : String) : String :=
  "[AI Suggested Fixes] " ++ originalTitle

/-- The self-recursion marker check of the event gate (index.js lines
88-89): case-insensitive `ai:` prefix or the fixed bracketed marker as a
substring. -/
def isAIGeneratedTitle (prTitle : String) : Bool :=
  jsStartsWith (jsToLower prTitle) "ai:" || jsIncludes prTitle "[AI Suggested Fixes]"

/-- `resource.repository` of the webhook payload. -/
structure JsRepository where
  name : Option String
  remoteUrl : String
  projectName : Option String
  deriving DecidableEq

/-- `req.body.resource`. -/
structure JsResource where
  pullRequestId : Option Nat
  title : Option String
  repository : Option JsRepository
  deriving DecidableEq

/-- `req.body`. -/
structure Payload where
  eventType : Option String
  resource : Option JsResource
  deriving DecidableEq

/-- `req.query` (only `testOnly` is read). -/
structure JsQuery where
  testOnly : Option String
  deriving DecidableEq

/-- The HTTP request: `body` may be empty, `query` may be absent. -/
structure JsRequest where
  body : Option Payload
  query : Option JsQuery
  deriving DecidableEq

/-- The environment variables the handler reads before delegating to
`processPullRequest`. -/
structure Env where
  AZURE_PAT : Option String
  AZURE_PROJECT : Option String
  AZURE_REPO : Option String
  INSTRUCTION_SOURCE : Option String
  CREATE_NEW_PR : Option String
  deriving DecidableEq

/-- The body of `context.res`: either a plain message string or the
`testOnly` summary object (index.js lines 160-171). -/
inductive ResBody where
  | text (s : String)
  | testSummary (project repoName : Option String) (prId : Nat) (createNewPR : Bool)
  deriving DecidableEq

/-- `context.res`: status code plus body. -/
structure HttpRes where
  status : Nat
  body : ResBody
  deriving DecidableEq

/-- The required-variable scan (index.js lines 138-145) over
`['AZURE_PAT', 'INSTRUCTION_SOURCE']`. -/
def requiredMissing (env : Env) : List String :=
  (if jsTruthyS env.AZURE_PAT then [] else ["AZURE_PAT"]) ++
    (if jsTruthyS env.INSTRUCTION_SOURCE then [] else ["INSTRUCTION_SOURCE"])

/-- `config.CREATE_NEW_PR` (index.js line 124): truthy env value compared
case-insensitively against `'true'`, else `false`. -/
def createNewPRFlag (env : Env) : Bool :=
  if jsTruthyS env.CREATE_NEW_PR then
    jsToLower (env.CREATE_NEW_PR.getD "") == "true"
  else
    false

/-- The exported HTTP handler (index.js line 40) up to and including the
dispatch into `processPullRequest`. External collaborators are
parameters: `urlPathSegments` models `new URL(url).pathname.split('/')
.filter(p => p)` (with `none` for a throwing URL constructor),
`loadGuidelines` the guidelines loader, and `processResult` the outcome
of `processPullRequest`; any value thrown inside the `try` surfaces as a
500 `"PR review failed: ..."` response via the surrounding `catch`. -/
def httpHandler (env : Env) (urlPathSegments : String → Option (List String))
    (loadGuidelines : String → Except String String)
    (processResult : Except JsError Unit) (req : JsRequest) : HttpRes :=
  match req.body with
  | none => { status := 400, body := ResBody.text "Invalid webhook payload: Body is empty" }
  | some body =>
    if jsTruthyS body.eventType then
      let eventType := body.eventType.getD ""
      if jsStartsWith eventType "git.pullrequest." then
        match body.resource with
        | none => { status := 400, body := ResBody.text "Missing PR information in payload" }
        | some resource =>
          if jsTruthyN resource.pullRequestId then
            let prTitle := resource.title.getD ""
            if isAIGeneratedTitle prTitle then
              { status := 200, body := ResBody.text "Skipped AI-generated PR" }
            else
              match resource.repository with
              | none =>
                  { status := 500,
                    body := ResBody.text
                      "PR review failed: Cannot read properties of undefined (reading \x27remoteUrl\x27)" }
              | some repository =>
                match urlPathSegments repository.remoteUrl with
                | none => { status := 500, body := ResBody.text "PR review failed: Invalid URL" }
                | some pathParts =>
                  if pathParts.length < 3 then
                    { status := 500,
                      body := ResBody.text
                        "PR review failed: URL path doesn\x27t contain enough segments" }
                  else
                    let missingVars := requiredMissing env
                    if missingVars.length > 0 then
                      { status := 500,
                        body := ResBody.text
                          ("Missing required environment variables: " ++
                            String.intercalate ", " missingVars) }
                    else
                      if (match req.query with
                          | some q => q.testOnly == some "true"
                          | none => false) then
                        { status := 200,
                          body := ResBody.testSummary
                            (jsOr repository.projectName env.AZURE_PROJECT)
                            (jsOr repository.name env.AZURE_REPO)
                            (resource.pullRequestId.getD 0)
                            (createNewPRFlag env) }
                      else
                        match loadGuidelines (env.INSTRUCTION_SOURCE.getD "") with
                        | Except.error msg =>
                            { status := 500,
                              body := ResBody.text ("Failed to load review guidelines: " ++ msg) }
                        | Except.ok _ =>
                          match processResult with
                          | Except.error e =>
                              { status := 500,
                                body := ResBody.text ("PR review failed: " ++ e.message) }
                          | Except.ok _ =>
                              { status := 200,
                                body := ResBody.text "PR review completed successfully" }
          else
            { status := 400, body := ResBody.text "Missing PR information in payload" }
      else
        { status := 200, body := ResBody.text ("Ignoring non-PR event: " ++ eventType) }
    else
      { status := 400, body := ResBody.text "Missing eventType in payload" }

/-! ## Helper lemmas -/

theorem splitLinesAux_length_pos (l acc : List Char) : 1 ≤ (splitLinesAux l acc).length := by
  induction l generalizing acc with
  | nil => simp [splitLinesAux]
  | cons c rest ih =>
      simp only [splitLinesAux]
      split
      · simp
      · exact ih _

/-- `content.split(/\r?\n/)` never yields an empty array, so the new-file
line count is always at least 1. -/
theorem splitLines_length_pos (s : String) : 1 ≤ (splitLines s).length :=
  splitLinesAux_length_pos _ _

theorem clampLine_pos (x : Int) (n : Nat) (h : 1 ≤ n) : 1 ≤ clampLine x n := by
  unfold clampLine; omega

theorem clampLine_le (x : Int) (n : Nat) : clampLine x n ≤ (n : Int) := by
  unfold clampLine; omega

theorem clampLine_of_range (x : Int) (n : Nat) (h1 : 1 ≤ x) (h2 : x ≤ (n : Int)) :
    clampLine x n = x := by
  unfold clampLine; omega

/-- With a positive line count, the post-clamp bounds filter of
`generateComments` keeps every clamped comment. -/
theorem filter_clamped_eq_self (cs : List RawComment) (n : Nat) (h : 1 ≤ n) :
    ((cs.map fun c =>
        ({ lineNumber := clampLine c.lineNumber n, comment := c.comment } : AIComment)).filter
      fun c => decide (0 < c.lineNumber) && decide (c.lineNumber ≤ (n : Int)))
    = cs.map fun c =>
        ({ lineNumber := clampLine c.lineNumber n, comment := c.comment } : AIComment) := by
  apply List.filter_eq_self.mpr
  intro a ha
  simp only [List.mem_map] at ha
  obtain ⟨c, _, rfl⟩ := ha
  simp only [Bool.and_eq_true, decide_eq_true_eq]
  exact ⟨by have := clampLine_pos c.lineNumber n h; omega, clampLine_le c.lineNumber n⟩

theorem string_eq_empty_iff (s : String) : s = "" ↔ s.data = [] := by
  cases s with
  | mk data => simp [String.ext_iff]

/-! ## Claims -/

/-- C6. If `oldContent` and `newContent` are identical, `generateComments`
short-circuits to `{comments: [], newContent}` (with no error field); the
result does not depend on the `model` collaborator, so the AI model is
never invoked. -/
theorem generateComments_identical_contents_short_circuit
    (oldContent newContent filePath guidelines : String)
    (model : ModelInput → Except JsError ModelRaw) (h : oldContent = newContent) :
    generateComments oldContent newContent filePath guidelines model
      = { comments := [], newContent := newContent, error := none } := by
  subst h
  simp [generateComments]

/-- Witness for C6 at concrete inputs. -/
theorem generateComments_identical_contents_short_circuit_witness :
    generateComments "line1\nline2" "line1\nline2" "a.txt" "no TODOs"
        (fun _ => Except.error { message := "should never be called", code := none, causeCode := none })
      = { comments := [], newContent := "line1\nline2", error := none } :=
  generateComments_identical_contents_short_circuit "line1\nline2" "line1\nline2" "a.txt"
    "no TODOs" _ rfl

/-- C5. Any failure of the model invocation or of result handling is
returned as the value `{comments: [], newContent, error: classified}`:
a rejected chain (timeout of the 25-second race, transport error,
JSON-parse failure) is classified by the `catch` block, and a parsed
result without a `comments` array (whose `.map` throws) yields the
generic classification. `generateComments` is a total function, so no
exception can pass its boundary; the third conjunct checks the timeout
race's message classifies to the timeout error text. -/
theorem generateComments_failure_returns_error_value
    (oldContent newContent filePath guidelines nc : String) (e : JsError)
    (h : oldContent ≠ newContent) :
    generateComments oldContent newContent filePath guidelines (fun _ => Except.error e)
        = { comments := [], newContent := newContent, error := some (classifyAIError e) } ∧
    generateComments oldContent newContent filePath guidelines
          (fun _ => Except.ok { comments := none, newContent := nc })
        = { comments := [], newContent := newContent, error := some "AI analysis failed" } ∧
    classifyAIError { message := "AI model request timed out after 25 seconds",
                      code := none, causeCode := none }
      = "AI model request timed out - the service may be experiencing high load" := by
  have hb : (oldContent == newContent) = false := beq_eq_false_iff_ne.mpr h
  refine ⟨?_, ?_, by decide⟩ <;> simp [generateComments, hb]

/-- Witness for C5 at concrete inputs. -/
theorem generateComments_failure_returns_error_value_witness :
    generateComments "x" "y" "a.txt" "g"
        (fun _ => Except.error { message := "boom", code := none, causeCode := none })
      = { comments := [], newContent := "y",
          error := some (classifyAIError { message := "boom", code := none, causeCode := none }) } :=
  (generateComments_failure_returns_error_value "x" "y" "a.txt" "g" "z"
    { message := "boom", code := none, causeCode := none } (by decide)).1

/-- C1 counterexample. A model-returned comment with `lineNumber = 0`
(below the valid range `[1, 2]` for the two-line new content) is NOT
dropped: the clamp at index.js line 650 runs before the bounds filter at
line 656, so the comment survives with `lineNumber` clamped to the
boundary 1, contradicting the claim that out-of-range comments are
dropped rather than clamped and kept. -/
theorem generateComments_line0_comment_kept :
    (generateComments "old" "l1\nl2" "a.txt" "g"
        (fun _ => Except.ok { comments := some [{ lineNumber := 0, comment := "oob" }],
                              newContent := "l1\nl2" })).comments
      = [{ lineNumber := 1, comment := "oob" }] := by
  decide

/-- C1 (amended). With line count `N = lineCount(newContent)` (always at
least 1), every model-returned comment survives with its `lineNumber`
clamped into `[1, N]`: a comment already in `[1, N]` survives unchanged,
while a comment with `lineNumber < 1` or `> N` is clamped onto the
boundary and kept — no comment is ever dropped by the bounds filter. -/
theorem generateComments_clamps_lineNumbers
    (oldContent newContent filePath guidelines nc : String) (cs : List RawComment)
    (h : oldContent ≠ newContent) :
    generateComments oldContent newContent filePath guidelines
        (fun _ => Except.ok { comments := some cs, newContent := nc })
      = { comments := cs.map fun c =>
            { lineNumber := clampLine c.lineNumber (splitLines newContent).length,
              comment := c.comment },
          newContent := nc, error := none } ∧
    (∀ c, c ∈ cs →
      1 ≤ clampLine c.lineNumber (splitLines newContent).length ∧
        clampLine c.lineNumber (splitLines newContent).length
          ≤ ((splitLines newContent).length : Int)) ∧
    (∀ c, c ∈ cs → 1 ≤ c.lineNumber →
      c.lineNumber ≤ ((splitLines newContent).length : Int) →
        clampLine c.lineNumber (splitLines newContent).length = c.lineNumber) := by
  have hb : (oldContent == newContent) = false := beq_eq_false_iff_ne.mpr h
  have hn := splitLines_length_pos newContent
  refine ⟨?_, fun c _ => ⟨clampLine_pos _ _ hn, clampLine_le _ _⟩,
    fun c _ h1 h2 => clampLine_of_range _ _ h1 h2⟩
  simp [generateComments, hb, filter_clamped_eq_self _ _ hn]

/-- Witness for the amended C1: a below-range, an in-range and an
above-range comment, all kept, the out-of-range ones clamped to 1 and 2. -/
theorem generateComments_clamps_lineNumbers_witness :
    generateComments "old" "l1\nl2" "a.txt" "g"
        (fun _ => Except.ok ⟨some [⟨-3, "low"⟩, ⟨2, "mid"⟩, ⟨9, "high"⟩], "fixed"⟩)
      = ⟨[⟨1, "low"⟩, ⟨2, "mid"⟩, ⟨2, "high"⟩], "fixed", none⟩ := by
  have h := (generateComments_clamps_lineNumbers "old" "l1\nl2" "a.txt" "g" "fixed"
    [⟨-3, "low"⟩, ⟨2, "mid"⟩, ⟨9, "high"⟩] (by decide)).1
  rw [h]
  decide

/-- C10. The correction validator never reads its first argument: its
verdict is the same for any two original contents, and it accepts exactly
the corrected contents whose whitespace-trimmed form is non-empty. -/
theorem validateCorrection_ignores_original (o1 o2 corrected : String) :
    validateCorrection o1 corrected = validateCorrection o2 corrected ∧
      (validateCorrection o1 corrected = true ↔ corrected.trim ≠ "") := by
  refine ⟨rfl, ?_⟩
  simp only [validateCorrection]
  constructor
  · intro hv hc
    rw [hc] at hv
    simp at hv
  · intro hne
    have : (corrected.trim.length == 0) = false := by
      simp only [beq_eq_false_iff_ne]
      intro hlen
      exact hne (string_eq_empty_iff _ |>.mpr (List.length_eq_zero.mp hlen))
    simp [this]

/-- C4. The per-file loop records a `FileCorrection` for a changed file
iff the model's suggested content differs from the file's source-branch
content and its whitespace-trimmed form is non-empty; in particular an
all-whitespace suggestion (whose trim is empty) is never recorded, and
when recorded the correction is exactly
`{path, originalContent := newContent, correctedContent := suggested}`. -/
theorem correction_recorded_iff_changed_and_nonblank (itemPath newContent suggested : String) :
    ((correctionFor itemPath newContent suggested).isSome = true ↔
      (suggested ≠ newContent ∧ suggested.trim ≠ "")) ∧
    (∀ fc, correctionFor itemPath newContent suggested = some fc →
      fc = { path := itemPath, originalContent := newContent, correctedContent := suggested }) := by
  have hval := (validateCorrection_ignores_original newContent newContent suggested).2
  constructor
  · simp only [correctionFor]
    split
    · rename_i hcond
      simp only [Bool.and_eq_true, bne_iff_ne] at hcond
      simp only [Option.isSome_some, true_iff]
      exact ⟨hcond.1, hval.mp hcond.2⟩
    · rename_i hcond
      simp only [Bool.and_eq_true, bne_iff_ne, not_and] at hcond
      simp only [Option.isSome_none, Bool.false_eq_true, false_iff, not_and]
      intro hne htrim
      exact absurd (hval.mpr htrim) (by simpa using hcond hne)
  · intro fc hfc
    simp only [correctionFor] at hfc
    split at hfc
    · exact (Option.some.injEq _ _ ▸ hfc).symm ▸ rfl
    · exact absurd hfc (by simp)

theorem postAll_ok (createThread : String → Int → String → Except JsError Unit)
    (filePath : String) (hp : ∀ p l t, createThread p l t = Except.ok ()) :
    ∀ cs : List AIComment, postAll createThread filePath cs = Except.ok () := by
  intro cs
  induction cs with
  | nil => rfl
  | cons c rest ih =>
      simp only [postAll, createCommentThread, hp, ih]
      rfl

/-- C2 counterexample. Two eligible changed files; fetching the first
file's content throws. The whole loop returns that error: the second
file is never processed and gets no outcome, so a fetch failure on one
file DOES abort processing of the remaining files (there is no per-file
try/catch in the loop, index.js lines 298-332). -/
theorem processFiles_fetch_error_aborts_loop :
    processFiles
        (fun p _ => if p == "a.txt" then Except.error ⟨"fetch failed", none, none⟩
          else Except.ok "x")
        (fun _ _ _ => Except.ok ()) (fun _ => Except.ok ⟨some [], "x"⟩) "g" "t" "s"
        [⟨some ⟨some "a.txt", none⟩⟩, ⟨some ⟨some "b.txt", none⟩⟩]
      = Except.error ⟨"fetch failed", none, none⟩ :=
  rfl

/-- C2 (amended). Failures of the model invocation ARE contained: as long
as every content fetch and every comment post succeeds, the loop never
aborts — it returns an outcome for every eligible changed file (model
errors are demoted to error values by `generateComments`), for any model
behaviour whatsoever. A thrown error while fetching a file's content, by
contrast, aborts the remaining files (see the counterexample). -/
theorem processFiles_model_failures_contained
    (fetch : String → String → Except JsError String)
    (createThread : String → Int → String → Except JsError Unit)
    (model : ModelInput → Except JsError ModelRaw)
    (guidelines targetRef sourceRef : String) (changes : List ChangeEntry)
    (hf : ∀ p r, ∃ s, fetch p r = Except.ok s)
    (hp : ∀ p l t, createThread p l t = Except.ok ()) :
    ∃ outs cors,
      processFiles fetch createThread model guidelines targetRef sourceRef changes
          = Except.ok (outs, cors) ∧
        outs.length = (changes.filter fun ch => !skipEntry ch).length := by
  induction changes with
  | nil => exact ⟨[], [], rfl, rfl⟩
  | cons ch rest ih =>
      obtain ⟨outs, cors, hok, hlen⟩ := ih
      by_cases hs : skipEntry ch = true
      · exact ⟨outs, cors, by simp [processFiles, hs, hok], by simp [List.filter_cons, hs, hlen]⟩
      · obtain ⟨oldContent, hold⟩ := hf ((entryPath ch).getD "") targetRef
        obtain ⟨newContent, hnew⟩ := hf ((entryPath ch).getD "") sourceRef
        refine ⟨((entryPath ch).getD "",
            generateComments oldContent newContent ((entryPath ch).getD "") guidelines model)
            :: outs,
          (correctionFor ((entryPath ch).getD "") newContent
            (generateComments oldContent newContent ((entryPath ch).getD "") guidelines
              model).newContent).toList ++ cors, ?_, ?_⟩
        · simp only [processFiles, hs, Bool.false_eq_true, if_false, hold, hnew,
            postAll_ok createThread _ hp, hok]
          rfl
        · simp [List.filter_cons, hs, hlen]

/-- Witness for the amended C2: two eligible files, all fetches succeed,
the model always times out — yet the loop completes with an outcome for
both files. -/
theorem processFiles_model_failures_contained_witness :
    ∃ outs cors,
      processFiles (fun _ _ => Except.ok "x") (fun _ _ _ => Except.ok ())
          (fun _ => Except.error ⟨"AI model request timed out after 25 seconds", none, none⟩)
          "g" "t" "s" [⟨some ⟨some "a.txt", none⟩⟩, ⟨some ⟨some "b.txt", none⟩⟩]
          = Except.ok (outs, cors) ∧
        outs.length
          = ([⟨some ⟨some "a.txt", none⟩⟩, ⟨some ⟨some "b.txt", none⟩⟩].filter
              fun ch => !skipEntry ch).length :=
  processFiles_model_failures_contained _ _ _ "g" "t" "s" _
    (fun _ _ => ⟨"x", rfl⟩) (fun _ _ _ => rfl)

theorem isPrefixOf_append_self (l t : List Char) : l.isPrefixOf (l ++ t) = true := by
  induction l with
  | nil => simp
  | cons c cs ih => simp [List.isPrefixOf, ih]

theorem jsIncludesAux_of_isPrefixOf (sub l : List Char) (h : sub.isPrefixOf l = true) :
    jsIncludesAux sub l = true := by
  cases l with
  | nil =>
      cases sub with
      | nil => rfl
      | cons c cs => simp [List.isPrefixOf] at h
  | cons c rest => simp [jsIncludesAux, h]

/-- The publisher's title always contains the gate's bracketed marker. -/
theorem marker_in_correction_title (t : String) :
    jsIncludes (correctionPRTitle t) "[AI Suggested Fixes]" = true := by
  apply jsIncludesAux_of_isPrefixOf
  have hd : (correctionPRTitle t).data = "[AI Suggested Fixes]".data ++ (' ' :: t.data) := rfl
  rw [hd]
  exact isPrefixOf_append_self _ _

/-- Shared helper: a well-formed PR event whose title matches the
self-recursion marker is answered with 200 "Skipped AI-generated PR",
independently of every collaborator. -/
theorem gate_skip_of_marker (env : Env) (u : String → Option (List String))
    (lg : String → Except String String) (pr : Except JsError Unit)
    (et : String) (n : Nat) (title : Option String) (repo : Option JsRepository)
    (q : Option JsQuery)
    (h1 : et ≠ "") (h2 : jsStartsWith et "git.pullrequest." = true) (h3 : n ≠ 0)
    (h4 : isAIGeneratedTitle (title.getD "") = true) :
    httpHandler env u lg pr ⟨some ⟨some et, some ⟨some n, title, repo⟩⟩, q⟩
      = ⟨200, ResBody.text "Skipped AI-generated PR"⟩ := by
  have he : jsTruthyS (some et) = true := by simp [jsTruthyS, h1]
  have hn : jsTruthyN (some n) = true := by simp [jsTruthyN, h3]
  simp [httpHandler, he, hn, h2, h4]

/-- C7. Any inbound PR event (well-formed body, `git.pullrequest.*` event
type, a pull-request id) whose resource title matches the AI-generated
marker — case-insensitive `ai:` prefix or the bracketed
`[AI Suggested Fixes]` substring — terminates with status 200 "Skipped
AI-generated PR". The conclusion holds for every environment, URL
parser, guidelines loader and `processPullRequest` outcome, so no review
work is performed. -/
theorem gate_ignores_ai_marker_titles (env : Env) (u : String → Option (List String))
    (lg : String → Except String String) (pr : Except JsError Unit)
    (et : String) (n : Nat) (title : Option String) (repo : Option JsRepository)
    (q : Option JsQuery)
    (h1 : et ≠ "") (h2 : jsStartsWith et "git.pullrequest." = true) (h3 : n ≠ 0)
    (h4 : isAIGeneratedTitle (title.getD "") = true) :
    httpHandler env u lg pr ⟨some ⟨some et, some ⟨some n, title, repo⟩⟩, q⟩
      = ⟨200, ResBody.text "Skipped AI-generated PR"⟩ :=
  gate_skip_of_marker env u lg pr et n title repo q h1 h2 h3 h4

/-- Witness for C7 at a concrete AI-prefixed title. -/
theorem gate_ignores_ai_marker_titles_witness :
    httpHandler ⟨none, none, none, none, none⟩ (fun _ => none) (fun _ => Except.error "e")
        (Except.ok ())
        ⟨some ⟨some "git.pullrequest.created", some ⟨some 7, some "AI: tweak config", none⟩⟩,
          none⟩
      = ⟨200, ResBody.text "Skipped AI-generated PR"⟩ :=
  gate_ignores_ai_marker_titles _ _ _ _ "git.pullrequest.created" 7 (some "AI: tweak config")
    none none (by decide) (by decide) (by decide) (by decide)

/-- C3. Round-trip between the Correction PR Publisher and the Event
Gate: for every original title `t`, the title `createCorrectionPR` gives
the new PR (`"[AI Suggested Fixes] " ++ t`, index.js line 781) matches the
gate's self-recursion marker check, and therefore any well-formed PR
event carrying that title is classified as skipped (200) by the gate. -/
theorem correctionPR_title_triggers_gate_skip (env : Env)
    (u : String → Option (List String)) (lg : String → Except String String)
    (pr : Except JsError Unit) (t et : String) (n : Nat) (repo : Option JsRepository)
    (q : Option JsQuery)
    (h1 : et ≠ "") (h2 : jsStartsWith et "git.pullrequest." = true) (h3 : n ≠ 0) :
    isAIGeneratedTitle (correctionPRTitle t) = true ∧
    httpHandler env u lg pr
        ⟨some ⟨some et, some ⟨some n, some (correctionPRTitle t), repo⟩⟩, q⟩
      = ⟨200, ResBody.text "Skipped AI-generated PR"⟩ := by
  have hm : isAIGeneratedTitle (correctionPRTitle t) = true := by
    simp [isAIGeneratedTitle, marker_in_correction_title t]
  exact ⟨hm, gate_skip_of_marker env u lg pr et n (some (correctionPRTitle t)) repo q
    h1 h2 h3 (by simpa using hm)⟩

/-- Witness for C3 at a concrete original title. -/
theorem correctionPR_title_triggers_gate_skip_witness :
    isAIGeneratedTitle (correctionPRTitle "Fix login bug") = true ∧
    httpHandler ⟨none, none, none, none, none⟩ (fun _ => none) (fun _ => Except.error "e")
        (Except.ok ())
        ⟨some ⟨some "git.pullrequest.updated",
          some ⟨some 3, some (correctionPRTitle "Fix login bug"), none⟩⟩, none⟩
      = ⟨200, ResBody.text "Skipped AI-generated PR"⟩ :=
  correctionPR_title_triggers_gate_skip _ _ _ _ "Fix login bug" "git.pullrequest.updated" 3
    none none (by decide) (by decide) (by decide)

/-- C8. Early terminal statuses of the event gate, all reached before any
collaborator is consulted (the conclusion holds for every environment,
URL parser, guidelines loader and `processPullRequest` outcome): an
empty body, a falsy `eventType`, or a missing/falsy `pullRequestId`
yield 400; an event type outside the `git.pullrequest.` family yields
200 "Ignoring non-PR event". -/
theorem gate_early_exit_statuses (env : Env) (u : String → Option (List String))
    (lg : String → Except String String) (pr : Except JsError Unit)
    (q : Option JsQuery) (b : Payload) (et : String) :
    (httpHandler env u lg pr ⟨none, q⟩
        = ⟨400, ResBody.text "Invalid webhook payload: Body is empty"⟩) ∧
    (jsTruthyS b.eventType = false →
      httpHandler env u lg pr ⟨some b, q⟩
        = ⟨400, ResBody.text "Missing eventType in payload"⟩) ∧
    (b.eventType = some et → et ≠ "" → jsStartsWith et "git.pullrequest." = false →
      httpHandler env u lg pr ⟨some b, q⟩
        = ⟨200, ResBody.text ("Ignoring non-PR event: " ++ et)⟩) ∧
    (b.eventType = some et → et ≠ "" → jsStartsWith et "git.pullrequest." = true →
      (b.resource = none ∨ ∃ r, b.resource = some r ∧ jsTruthyN r.pullRequestId = false) →
      httpHandler env u lg pr ⟨some b, q⟩
        = ⟨400, ResBody.text "Missing PR information in payload"⟩) := by
  refine ⟨rfl, ?_, ?_, ?_⟩
  · intro h
    simp [httpHandler, h]
  · intro hbe h1 h2
    have he : jsTruthyS (some et) = true := by simp [jsTruthyS, h1]
    simp [httpHandler, hbe, he, h2]
  · intro hbe h1 h2 hres
    have he : jsTruthyS (some et) = true := by simp [jsTruthyS, h1]
    rcases hres with hnone | ⟨r, hr, hid⟩
    · simp [httpHandler, hbe, he, h2, hnone]
    · simp [httpHandler, hbe, he, h2, hr, hid]

/-- Witness for C8: one concrete request per early exit. -/
theorem gate_early_exit_statuses_witness :
    (httpHandler ⟨none, none, none, none, none⟩ (fun _ => none) (fun _ => Except.error "e")
        (Except.ok ()) ⟨none, none⟩
      = ⟨400, ResBody.text "Invalid webhook payload: Body is empty"⟩) ∧
    (httpHandler ⟨none, none, none, none, none⟩ (fun _ => none) (fun _ => Except.error "e")
        (Except.ok ()) ⟨some ⟨none, none⟩, none⟩
      = ⟨400, ResBody.text "Missing eventType in payload"⟩) ∧
    (httpHandler ⟨none, none, none, none, none⟩ (fun _ => none) (fun _ => Except.error "e")
        (Except.ok ()) ⟨some ⟨some "build.complete", none⟩, none⟩
      = ⟨200, ResBody.text ("Ignoring non-PR event: " ++ "build.complete")⟩) ∧
    (httpHandler ⟨none, none, none, none, none⟩ (fun _ => none) (fun _ => Except.error "e")
        (Except.ok ()) ⟨some ⟨some "git.pullrequest.created", none⟩, none⟩
      = ⟨400, ResBody.text "Missing PR information in payload"⟩) :=
  ⟨(gate_early_exit_statuses _ _ _ _ none ⟨none, none⟩ "x").1,
    (gate_early_exit_statuses _ _ _ _ none ⟨none, none⟩ "x").2.1 (by decide),
    (gate_early_exit_statuses _ _ _ _ none ⟨some "build.complete", none⟩
      "build.complete").2.2.1 rfl (by decide) (by decide),
    (gate_early_exit_statuses _ _ _ _ none ⟨some "git.pullrequest.created", none⟩
      "git.pullrequest.created").2.2.2 rfl (by decide) (by decide) (Or.inl rfl)⟩

/-- C9. The `testOnly` bypass: a request whose query carries
`testOnly = 'true'` and which passes payload, organization and
configuration validation is answered 200 with the test summary. The
conclusion holds for every guidelines loader and every
`processPullRequest` outcome — neither is consulted — so no guidelines
are loaded, no model is invoked, and no version-control operation
happens. -/
theorem gate_testOnly_bypass (env : Env) (u : String → Option (List String))
    (lg : String → Except String String) (pr : Except JsError Unit)
    (et : String) (n : Nat) (title : Option String) (repo : JsRepository)
    (parts : List String)
    (h1 : et ≠ "") (h2 : jsStartsWith et "git.pullrequest." = true) (h3 : n ≠ 0)
    (h4 : isAIGeneratedTitle (title.getD "") = false)
    (h5 : u repo.remoteUrl = some parts) (h6 : 3 ≤ parts.length)
    (h7 : jsTruthyS env.AZURE_PAT = true) (h8 : jsTruthyS env.INSTRUCTION_SOURCE = true) :
    httpHandler env u lg pr
        ⟨some ⟨some et, some ⟨some n, title, some repo⟩⟩, some ⟨some "true"⟩⟩
      = ⟨200, ResBody.testSummary (jsOr repo.projectName env.AZURE_PROJECT)
          (jsOr repo.name env.AZURE_REPO) n (createNewPRFlag env)⟩ := by
  have he : jsTruthyS (some et) = true := by simp [jsTruthyS, h1]
  have hn : jsTruthyN (some n) = true := by simp [jsTruthyN, h3]
  have hlt : ¬ parts.length < 3 := by omega
  simp [httpHandler, he, hn, h2, h4, h5, hlt, requiredMissing, h7, h8]

/-- Witness for C9 at a concrete request and environment. -/
theorem gate_testOnly_bypass_witness :
    httpHandler ⟨some "pat", none, none, some "guide.md", none⟩
        (fun _ => some ["org", "proj", "_git", "repo"]) (fun _ => Except.error "e")
        (Except.ok ())
        ⟨some ⟨some "git.pullrequest.created",
          some ⟨some 42, some "Fix bug",
            some ⟨some "repo", "https://dev.azure.com/org/proj/_git/repo", some "proj"⟩⟩⟩,
          some ⟨some "true"⟩⟩
      = ⟨200, ResBody.testSummary (some "proj") (some "repo") 42 false⟩ :=
  (gate_testOnly_bypass ⟨some "pat", none, none, some "guide.md", none⟩
    (fun _ => some ["org", "proj", "_git", "repo"]) (fun _ => Except.error "e")
    (Except.ok ()) "git.pullrequest.created" 42 (some "Fix bug")
    ⟨some "repo", "https://dev.azure.com/org/proj/_git/repo", some "proj"⟩
    ["org", "proj", "_git", "repo"] (by decide) (by decide) (by decide) (by decide)
    rfl (by decide) (by decide) (by decide)).trans (by decide)

end PRReview
